import Mathlib

/-!
# BambooHoldSpeech — verification of the confidential classification contract

Shallow embedding of the `BambooHoldSpeech` Solidity contract
(encrypted metrics submission, risk classification, per-principal record
ledger) and of the frontend batch-disclosure routine `userDecryptBatch`.

Ciphertext handles are modelled as pairs (identity, plaintext value): the
FHEVM coprocessor evaluates each homomorphic operation on the underlying
plaintexts and allocates a fresh handle identity for every result, so each
`FHE.*` operation below threads an allocation counter.  Machine integers
are `Nat` with explicit `% 2^w` reduction at the width of each operation.
-/

namespace BambooHold

/-- An address (principal identity) on the chain. -/
abbrev Address := Nat

/-- A ciphertext handle: an opaque identity plus the plaintext the
coprocessor would decrypt it to.  The width discipline is enforced by the
operations that build handles, which reduce modulo the width. -/
structure Handle where
  id : Nat
  val : Nat
  deriving Repr, DecidableEq

namespace FHE

/-- `FHE.asEuint16` on a plaintext constant: fresh 16-bit handle. -/
def asEuint16 (c : Nat) (n : Nat) : Handle × Nat :=
  (⟨c, n % 65536⟩, c + 1)

/-- `FHE.asEuint8` on a plaintext constant: fresh 8-bit handle. -/
def asEuint8 (c : Nat) (n : Nat) : Handle × Nat :=
  (⟨c, n % 256⟩, c + 1)

/-- `FHE.fromExternal` on an `externalEuint16`: admits the encrypted input
as a fresh 16-bit handle (the integrity proof is assumed verified). -/
def fromExternal16 (c : Nat) (n : Nat) : Handle × Nat :=
  (⟨c, n % 65536⟩, c + 1)

/-- `FHE.mul` at 16-bit width: product modulo 2^16. -/
def mul16 (c : Nat) (a b : Handle) : Handle × Nat :=
  (⟨c, a.val * b.val % 65536⟩, c + 1)

/-- `FHE.add` at 16-bit width: sum modulo 2^16. -/
def add16 (c : Nat) (a b : Handle) : Handle × Nat :=
  (⟨c, (a.val + b.val) % 65536⟩, c + 1)

/-- `FHE.asEuint32` widening a 16-bit handle: value-preserving cast. -/
def asEuint32 (c : Nat) (a : Handle) : Handle × Nat :=
  (⟨c, a.val⟩, c + 1)

/-- `FHE.ge` at 16-bit width: encrypted boolean, 1 when `a >= b`. -/
def ge16 (c : Nat) (a b : Handle) : Handle × Nat :=
  (⟨c, if b.val ≤ a.val then 1 else 0⟩, c + 1)

/-- `FHE.select`: encrypted conditional, yields `a`'s plaintext when the
predicate ciphertext is non-zero, `b`'s otherwise. -/
def select (c : Nat) (cond a b : Handle) : Handle × Nat :=
  (⟨c, if cond.val ≠ 0 then a.val else b.val⟩, c + 1)

end FHE

/-- `MetricsRecord` struct of the contract: five ciphertext handles plus
the public block timestamp. -/
structure MetricsRecord where
  emotionalFluctuation : Handle
  socialFatigue : Handle
  sleepDebt : Handle
  riskScore : Handle
  cautionWindow : Handle
  timestamp : Nat
  deriving Repr, DecidableEq

/-- Solidity default (all-zero) `MetricsRecord`, the value a mapping
returns for a key that was never written. -/
def defaultRecord : MetricsRecord :=
  { emotionalFluctuation := ⟨0, 0⟩
    socialFatigue := ⟨0, 0⟩
    sleepDebt := ⟨0, 0⟩
    riskScore := ⟨0, 0⟩
    cautionWindow := ⟨0, 0⟩
    timestamp := 0 }

/-- The contract's storage, plus the FHEVM access-control list and the
coprocessor's handle-allocation counter. -/
structure ContractState where
  userHistory : Address → List MetricsRecord
  latestMetrics : Address → MetricsRecord
  submissionCount : Address → Nat
  acl : Nat → Address → Bool
  nextHandle : Nat

/-- Deployment state: all mappings empty / zero-initialized. -/
def initState : ContractState :=
  { userHistory := fun _ => []
    latestMetrics := fun _ => defaultRecord
    submissionCount := fun _ => 0
    acl := fun _ _ => false
    nextHandle := 1 }

/-- `MODERATE_THRESHOLD` constant. -/
def MODERATE_THRESHOLD : Nat := 1110

/-- `HIGH_RISK_THRESHOLD` constant. -/
def HIGH_RISK_THRESHOLD : Nat := 1850

/-- `_calculateRiskScore`: weighted sum at 16-bit width, widened to a
32-bit score, tier selected by two nested homomorphic selects.  Returns
`(riskScore, cautionWindow, next allocation counter)`. -/
def calculateRiskScore (c : Nat) (emotional social sleep : Handle) :
    Handle × Handle × Nat :=
  let (w12, c) := FHE.asEuint16 c 12
  let (emotionalWeighted, c) := FHE.mul16 c emotional w12
  let (w10, c) := FHE.asEuint16 c 10
  let (socialWeighted, c) := FHE.mul16 c social w10
  let (w15, c) := FHE.asEuint16 c 15
  let (sleepWeighted, c) := FHE.mul16 c sleep w15
  let (totalWeighted, c) := FHE.add16 c emotionalWeighted socialWeighted
  let (totalWeighted, c) := FHE.add16 c totalWeighted sleepWeighted
  let (riskScore, c) := FHE.asEuint32 c totalWeighted
  let (hiThresh, c) := FHE.asEuint16 c HIGH_RISK_THRESHOLD
  let (isHighRisk, c) := FHE.ge16 c totalWeighted hiThresh
  let (moThresh, c) := FHE.asEuint16 c MODERATE_THRESHOLD
  let (isModerateRisk, c) := FHE.ge16 c totalWeighted moThresh
  let (level0, c) := FHE.asEuint8 c 0
  let (level1, c) := FHE.asEuint8 c 1
  let (level2, c) := FHE.asEuint8 c 2
  let (cautionWindow, c) := FHE.select c isHighRisk level2 level1
  let (cautionWindow, c) := FHE.select c isModerateRisk cautionWindow level0
  (riskScore, cautionWindow, c)

/-- Events emitted by the contract. -/
inductive Event where
  | metricsSubmitted (user : Address) (timestamp : Nat) (recordIndex : Nat)
  | cautionWindowUpdated (user : Address) (timestamp : Nat)
  deriving Repr, DecidableEq

/-- `FHE.allow`: grant `principal` disclosure rights on handle `h`. -/
def aclAllow (acl : Nat → Address → Bool) (h : Handle) (principal : Address) :
    Nat → Address → Bool :=
  fun i a => if i = h.id ∧ a = principal then true else acl i a

/-- `submitMetrics`, executed by `sender` at block time `ts` with
(already-proved) encrypted inputs `e`, `s`, `p`; `this` is the contract's
own address.  Returns the post-state and the emitted events in order. -/
def submitMetrics (this : Address) (st : ContractState) (sender : Address)
    (ts : Nat) (e s p : Nat) : ContractState × List Event :=
  let c := st.nextHandle
  let (emotional, c) := FHE.fromExternal16 c e
  let (social, c) := FHE.fromExternal16 c s
  let (sleep, c) := FHE.fromExternal16 c p
  let (riskScore, cautionWindow, c) := calculateRiskScore c emotional social sleep
  let record : MetricsRecord :=
    { emotionalFluctuation := emotional
      socialFatigue := social
      sleepDebt := sleep
      riskScore := riskScore
      cautionWindow := cautionWindow
      timestamp := ts }
  let history := st.userHistory sender ++ [record]
  let acl := st.acl
  let acl := aclAllow acl riskScore sender
  let acl := aclAllow acl cautionWindow sender
  let acl := aclAllow acl emotional sender
  let acl := aclAllow acl social sender
  let acl := aclAllow acl sleep sender
  let acl := aclAllow acl emotional this
  let acl := aclAllow acl social this
  let acl := aclAllow acl sleep this
  let acl := aclAllow acl riskScore this
  let acl := aclAllow acl cautionWindow this
  let st' : ContractState :=
    { userHistory := fun a => if a = sender then history else st.userHistory a
      latestMetrics := fun a => if a = sender then record else st.latestMetrics a
      submissionCount := fun a =>
        if a = sender then st.submissionCount a + 1 else st.submissionCount a
      acl := acl
      nextHandle := c }
  (st', [Event.metricsSubmitted sender ts (history.length - 1),
         Event.cautionWindowUpdated sender ts])

/-- Error taxonomy of the contract's `require` messages. -/
inductive ContractError where
  | noSubmission
  | indexOutOfBounds
  deriving Repr, DecidableEq

/-- `getCautionWindow`: latest tier handle, or revert if never submitted. -/
def getCautionWindow (st : ContractState) (sender : Address) :
    Except ContractError Handle :=
  if (st.latestMetrics sender).timestamp > 0 then
    .ok (st.latestMetrics sender).cautionWindow
  else .error .noSubmission

/-- `getRiskScore`: latest score handle, or revert if never submitted. -/
def getRiskScore (st : ContractState) (sender : Address) :
    Except ContractError Handle :=
  if (st.latestMetrics sender).timestamp > 0 then
    .ok (st.latestMetrics sender).riskScore
  else .error .noSubmission

/-- `getLatestMetrics`: latest three input handles and the public
timestamp, or revert if never submitted. -/
def getLatestMetrics (st : ContractState) (sender : Address) :
    Except ContractError (Handle × Handle × Handle × Nat) :=
  if (st.latestMetrics sender).timestamp > 0 then
    let record := st.latestMetrics sender
    .ok (record.emotionalFluctuation, record.socialFatigue,
         record.sleepDebt, record.timestamp)
  else .error .noSubmission

/-- `getHistoryCount`: history length for the caller; has no `require`. -/
def getHistoryCount (st : ContractState) (sender : Address) :
    Except ContractError Nat :=
  .ok (st.userHistory sender).length

/-- `getMetricsAtIndex`: the record at a 0-based index, or revert with
`Index out of bounds`. -/
def getMetricsAtIndex (st : ContractState) (sender : Address) (index : Nat) :
    Except ContractError MetricsRecord :=
  if h : index < (st.userHistory sender).length then
    .ok ((st.userHistory sender).get ⟨index, h⟩)
  else .error .indexOutOfBounds

/-- `getSummary`: `(submissionCount, latest timestamp)`; has no `require`. -/
def getSummary (st : ContractState) (sender : Address) :
    Except ContractError (Nat × Nat) :=
  .ok (st.submissionCount sender, (st.latestMetrics sender).timestamp)

/-- The ten `FHE.allow` calls re-issued for one record: five grants to
`sender`, then five to the contract itself. -/
def grantRecord (acl : Nat → Address → Bool) (r : MetricsRecord)
    (sender this : Address) : Nat → Address → Bool :=
  let acl := aclAllow acl r.emotionalFluctuation sender
  let acl := aclAllow acl r.socialFatigue sender
  let acl := aclAllow acl r.sleepDebt sender
  let acl := aclAllow acl r.riskScore sender
  let acl := aclAllow acl r.cautionWindow sender
  let acl := aclAllow acl r.emotionalFluctuation this
  let acl := aclAllow acl r.socialFatigue this
  let acl := aclAllow acl r.sleepDebt this
  let acl := aclAllow acl r.riskScore this
  aclAllow acl r.cautionWindow this

/-- `reauthorizeRecord`: re-grants one stored record's handles (and, when
it is the last record, the latest-metrics handles); reverts on an
out-of-bounds index, leaving the state unchanged. -/
def reauthorizeRecord (this : Address) (st : ContractState) (sender : Address)
    (index : Nat) : ContractState :=
  if h : index < (st.userHistory sender).length then
    let record := (st.userHistory sender).get ⟨index, h⟩
    let acl := grantRecord st.acl record sender this
    let acl :=
      if index = (st.userHistory sender).length - 1 then
        grantRecord acl (st.latestMetrics sender) sender this
      else acl
    { st with acl := acl }
  else st

/-- `reauthorizeAllRecords`: re-grants every stored record's handles, then
the latest-metrics handles when the history is non-empty. -/
def reauthorizeAllRecords (this : Address) (st : ContractState)
    (sender : Address) : ContractState :=
  let acl := (st.userHistory sender).foldl
    (fun acl r => grantRecord acl r sender this) st.acl
  let acl :=
    if (st.userHistory sender).length > 0 then
      grantRecord acl (st.latestMetrics sender) sender this
    else acl
  { st with acl := acl }

/-- The cross-operation state invariant: the public counter tracks the
history length, and the latest-record projection is the last element. -/
def Inv (st : ContractState) : Prop := ∀ a : Address,
  st.submissionCount a = (st.userHistory a).length ∧
  (st.userHistory a ≠ [] → (st.userHistory a).getLast? = some (st.latestMetrics a))

/-- A state-mutating external call to the contract (the view functions
never write). -/
inductive Op where
  | submit (sender : Address) (ts : Nat) (e s p : Nat)
  | reauthRecord (sender : Address) (index : Nat)
  | reauthAll (sender : Address)
  deriving Repr, DecidableEq

/-- `msg.sender` of an operation. -/
def Op.sender : Op → Address
  | .submit a _ _ _ _ => a
  | .reauthRecord a _ => a
  | .reauthAll a => a

/-- Whether an operation is a `submitMetrics` call by `a`. -/
def isSubmitBy (a : Address) : Op → Bool
  | .submit s _ _ _ _ => decide (s = a)
  | _ => false

/-- Whether an operation carries a positive block timestamp (true of every
real chain block; only `submit` records a timestamp). -/
def opPosTs : Op → Bool
  | .submit _ ts _ _ _ => decide (0 < ts)
  | _ => true

/-- One transaction against the contract state. -/
def step (this : Address) (st : ContractState) : Op → ContractState
  | .submit sender ts e s p => (submitMetrics this st sender ts e s p).1
  | .reauthRecord sender index => reauthorizeRecord this st sender index
  | .reauthAll sender => reauthorizeAllRecords this st sender

/-- Run a sequence of transactions from the deployment state. -/
def run (this : Address) (ops : List Op) : ContractState :=
  ops.foldl (step this) initState

end BambooHold

namespace Frontend

/-- Outcome of one `userDecryptBatch` call: how many wallet signatures
were requested, and either the plaintexts in request order or the thrown
error message. -/
structure BatchOutcome where
  signaturesRequested : Nat
  result : Except String (List Nat)
  deriving Repr

/-- The extraction loop of `userDecryptBatch`: walk the requested handles
in order, look each up in the oracle's response, and throw on the first
handle the response is missing. -/
def extractValues (handles : List String) (response : String → Option Nat) :
    Except String (List Nat) :=
  match handles with
  | [] => .ok []
  | h :: rest =>
    match response h with
    | none => .error ("Failed to decrypt handle " ++ h)
    | some v => (extractValues rest response).map (fun vs => v :: vs)

/-- `userDecryptBatch`: an empty batch returns immediately with no
signature; otherwise exactly one signature is requested (one
`signer.signTypedData` call) and all handles are resolved against the
oracle's single response. -/
def userDecryptBatch (handles : List String) (response : String → Option Nat) :
    BatchOutcome :=
  if handles.isEmpty then { signaturesRequested := 0, result := .ok [] }
  else { signaturesRequested := 1, result := extractValues handles response }

end Frontend

namespace BambooHold

/-! ## Helper lemmas about the classifier and `submitMetrics` -/

lemma aclAllow_self (acl : Nat → Address → Bool) (h : Handle) (a : Address) :
    aclAllow acl h a h.id a = true := by
  simp [aclAllow]

lemma aclAllow_of (acl : Nat → Address → Bool) (h : Handle) (a : Address) (i : Nat)
    (b : Address) (hib : acl i b = true) : aclAllow acl h a i b = true := by
  unfold aclAllow
  split <;> simp [hib]

lemma calculateRiskScore_val (c : Nat) (eh sh ph : Handle)
    (he : eh.val ≤ 100) (hs : sh.val ≤ 100) (hp : ph.val ≤ 100) :
    (calculateRiskScore c eh sh ph).1.val = 12 * eh.val + 10 * sh.val + 15 * ph.val ∧
    (calculateRiskScore c eh sh ph).2.1.val =
      (if 1850 ≤ 12 * eh.val + 10 * sh.val + 15 * ph.val then 2
       else if 1110 ≤ 12 * eh.val + 10 * sh.val + 15 * ph.val then 1 else 0) := by
  simp only [calculateRiskScore, FHE.asEuint16, FHE.mul16, FHE.add16, FHE.asEuint32,
    FHE.ge16, FHE.asEuint8, FHE.select, MODERATE_THRESHOLD, HIGH_RISK_THRESHOLD]
  norm_num
  have m5 : (eh.val * 12 + sh.val * 10 + ph.val * 15) % 65536
      = eh.val * 12 + sh.val * 10 + ph.val * 15 := Nat.mod_eq_of_lt (by omega)
  rw [m5]
  constructor
  · omega
  · split_ifs <;> omega

lemma calculateRiskScore_tier_range (c : Nat) (eh sh ph : Handle) :
    (calculateRiskScore c eh sh ph).2.1.val = 0 ∨
    (calculateRiskScore c eh sh ph).2.1.val = 1 ∨
    (calculateRiskScore c eh sh ph).2.1.val = 2 := by
  simp only [calculateRiskScore, FHE.asEuint16, FHE.mul16, FHE.add16, FHE.asEuint32,
    FHE.ge16, FHE.asEuint8, FHE.select]
  split_ifs <;> norm_num

lemma submitMetrics_history_self (this : Address) (st : ContractState) (sender : Address)
    (ts e s p : Nat) :
    (submitMetrics this st sender ts e s p).1.userHistory sender
      = st.userHistory sender
          ++ [(submitMetrics this st sender ts e s p).1.latestMetrics sender] := by
  simp [submitMetrics]

lemma submitMetrics_count_self (this : Address) (st : ContractState) (sender : Address)
    (ts e s p : Nat) :
    (submitMetrics this st sender ts e s p).1.submissionCount sender
      = st.submissionCount sender + 1 := by
  simp [submitMetrics]

lemma submitMetrics_timestamp (this : Address) (st : ContractState) (sender : Address)
    (ts e s p : Nat) :
    ((submitMetrics this st sender ts e s p).1.latestMetrics sender).timestamp = ts := by
  simp [submitMetrics]

lemma submitMetrics_frame (this : Address) (st : ContractState) (sender : Address)
    (ts e s p : Nat) (b : Address) (hb : b ≠ sender) :
    (submitMetrics this st sender ts e s p).1.userHistory b = st.userHistory b ∧
    (submitMetrics this st sender ts e s p).1.latestMetrics b = st.latestMetrics b ∧
    (submitMetrics this st sender ts e s p).1.submissionCount b = st.submissionCount b := by
  simp [submitMetrics, hb]

lemma submitMetrics_events (this : Address) (st : ContractState) (sender : Address)
    (ts e s p : Nat) :
    (submitMetrics this st sender ts e s p).2
      = [Event.metricsSubmitted sender ts (st.userHistory sender).length,
         Event.cautionWindowUpdated sender ts] := by
  simp [submitMetrics]

lemma submitMetrics_acl (this : Address) (st : ContractState) (sender : Address)
    (ts e s p : Nat) :
    ((submitMetrics this st sender ts e s p).1.acl
      ((submitMetrics this st sender ts e s p).1.latestMetrics sender).emotionalFluctuation.id
      sender = true) ∧
    ((submitMetrics this st sender ts e s p).1.acl
      ((submitMetrics this st sender ts e s p).1.latestMetrics sender).socialFatigue.id
      sender = true) ∧
    ((submitMetrics this st sender ts e s p).1.acl
      ((submitMetrics this st sender ts e s p).1.latestMetrics sender).sleepDebt.id
      sender = true) ∧
    ((submitMetrics this st sender ts e s p).1.acl
      ((submitMetrics this st sender ts e s p).1.latestMetrics sender).riskScore.id
      sender = true) ∧
    ((submitMetrics this st sender ts e s p).1.acl
      ((submitMetrics this st sender ts e s p).1.latestMetrics sender).cautionWindow.id
      sender = true) ∧
    ((submitMetrics this st sender ts e s p).1.acl
      ((submitMetrics this st sender ts e s p).1.latestMetrics sender).emotionalFluctuation.id
      this = true) ∧
    ((submitMetrics this st sender ts e s p).1.acl
      ((submitMetrics this st sender ts e s p).1.latestMetrics sender).socialFatigue.id
      this = true) ∧
    ((submitMetrics this st sender ts e s p).1.acl
      ((submitMetrics this st sender ts e s p).1.latestMetrics sender).sleepDebt.id
      this = true) ∧
    ((submitMetrics this st sender ts e s p).1.acl
      ((submitMetrics this st sender ts e s p).1.latestMetrics sender).riskScore.id
      this = true) ∧
    ((submitMetrics this st sender ts e s p).1.acl
      ((submitMetrics this st sender ts e s p).1.latestMetrics sender).cautionWindow.id
      this = true) := by
  simp only [submitMetrics]
  refine ⟨?_, ?_, ?_, ?_, ?_, ?_, ?_, ?_, ?_, ?_⟩ <;>
    · repeat first
        | exact aclAllow_self _ _ _
        | apply aclAllow_of

end BambooHold

namespace BambooHold

lemma reauthorizeRecord_fields (this : Address) (st : ContractState) (sender : Address)
    (index : Nat) :
    (reauthorizeRecord this st sender index).userHistory = st.userHistory ∧
    (reauthorizeRecord this st sender index).latestMetrics = st.latestMetrics ∧
    (reauthorizeRecord this st sender index).submissionCount = st.submissionCount := by
  unfold reauthorizeRecord
  split <;> exact ⟨rfl, rfl, rfl⟩

lemma reauthorizeAllRecords_fields (this : Address) (st : ContractState) (sender : Address) :
    (reauthorizeAllRecords this st sender).userHistory = st.userHistory ∧
    (reauthorizeAllRecords this st sender).latestMetrics = st.latestMetrics ∧
    (reauthorizeAllRecords this st sender).submissionCount = st.submissionCount :=
  ⟨rfl, rfl, rfl⟩

lemma inv_init : Inv initState := by
  intro a
  simp [initState]

lemma inv_step (this : Address) (st : ContractState) (op : Op) (h : Inv st) :
    Inv (step this st op) := by
  cases op with
  | submit sender ts e s p =>
      intro a
      simp only [step]
      by_cases hab : a = sender
      · subst hab
        constructor
        · rw [submitMetrics_count_self, submitMetrics_history_self, (h a).1]
          simp
        · intro _
          rw [submitMetrics_history_self]
          exact List.getLast?_concat _
      · obtain ⟨h1, h2, h3⟩ := submitMetrics_frame this st sender ts e s p a hab
        rw [h1, h2, h3]
        exact h a
  | reauthRecord sender index =>
      intro a
      obtain ⟨h1, h2, h3⟩ := reauthorizeRecord_fields this st sender index
      simp only [step]
      rw [h1, h2, h3]
      exact h a
  | reauthAll sender =>
      intro a
      obtain ⟨h1, h2, h3⟩ := reauthorizeAllRecords_fields this st sender
      simp only [step]
      rw [h1, h2, h3]
      exact h a

lemma inv_foldl (this : Address) (ops : List Op) (st : ContractState) (h : Inv st) :
    Inv (List.foldl (step this) st ops) := by
  induction ops generalizing st with
  | nil => exact h
  | cons op rest ih => exact ih _ (inv_step this st op h)

lemma inv_run (this : Address) (ops : List Op) : Inv (run this ops) :=
  inv_foldl this ops initState inv_init

lemma step_frame_not_submitter (this : Address) (st : ContractState) (op : Op) (a : Address)
    (h : isSubmitBy a op = false) :
    (step this st op).userHistory a = st.userHistory a ∧
    (step this st op).latestMetrics a = st.latestMetrics a ∧
    (step this st op).submissionCount a = st.submissionCount a := by
  cases op with
  | submit sender ts e s p =>
      have hab : a ≠ sender := by
        simp [isSubmitBy] at h
        exact fun hh => h hh.symm
      exact submitMetrics_frame this st sender ts e s p a hab
  | reauthRecord sender index =>
      obtain ⟨h1, h2, h3⟩ := reauthorizeRecord_fields this st sender index
      exact ⟨congrFun h1 a, congrFun h2 a, congrFun h3 a⟩
  | reauthAll sender =>
      obtain ⟨h1, h2, h3⟩ := reauthorizeAllRecords_fields this st sender
      exact ⟨congrFun h1 a, congrFun h2 a, congrFun h3 a⟩

lemma foldl_no_submit (this : Address) (a : Address) (ops : List Op)
    (h : ∀ op ∈ ops, isSubmitBy a op = false) (st : ContractState) :
    (List.foldl (step this) st ops).userHistory a = st.userHistory a ∧
    (List.foldl (step this) st ops).latestMetrics a = st.latestMetrics a ∧
    (List.foldl (step this) st ops).submissionCount a = st.submissionCount a := by
  induction ops generalizing st with
  | nil => exact ⟨rfl, rfl, rfl⟩
  | cons op rest ih =>
      obtain ⟨h1, h2, h3⟩ := step_frame_not_submitter this st op a (h op (by simp))
      obtain ⟨g1, g2, g3⟩ := ih (fun o ho => h o (by simp [ho])) (step this st op)
      exact ⟨g1.trans h1, g2.trans h2, g3.trans h3⟩

lemma step_ts_pos (this : Address) (st : ContractState) (op : Op) (a : Address)
    (hop : opPosTs op = true) (h : 0 < (st.latestMetrics a).timestamp) :
    0 < ((step this st op).latestMetrics a).timestamp := by
  cases op with
  | submit sender ts e s p =>
      by_cases hab : a = sender
      · subst hab
        show 0 < ((submitMetrics this st a ts e s p).1.latestMetrics a).timestamp
        rw [submitMetrics_timestamp]
        simpa [opPosTs] using hop
      · show 0 < ((submitMetrics this st sender ts e s p).1.latestMetrics a).timestamp
        rw [(submitMetrics_frame this st sender ts e s p a hab).2.1]
        exact h
  | reauthRecord sender index =>
      show 0 < ((reauthorizeRecord this st sender index).latestMetrics a).timestamp
      rw [congrFun (reauthorizeRecord_fields this st sender index).2.1 a]
      exact h
  | reauthAll sender =>
      show 0 < ((reauthorizeAllRecords this st sender).latestMetrics a).timestamp
      rw [congrFun (reauthorizeAllRecords_fields this st sender).2.1 a]
      exact h

lemma foldl_ts_pos (this : Address) (a : Address) (ops : List Op)
    (hpos : ∀ op ∈ ops, opPosTs op = true) (st : ContractState)
    (h : 0 < (st.latestMetrics a).timestamp) :
    0 < ((List.foldl (step this) st ops).latestMetrics a).timestamp := by
  induction ops generalizing st with
  | nil => exact h
  | cons op rest ih =>
      exact ih (fun o ho => hpos o (by simp [ho])) (step this st op)
        (step_ts_pos this st op a (hpos op (by simp)) h)

lemma foldl_submit_ts_pos (this : Address) (a : Address) (ops : List Op)
    (hpos : ∀ op ∈ ops, opPosTs op = true)
    (hsub : ∃ op ∈ ops, isSubmitBy a op = true) (st : ContractState) :
    0 < ((List.foldl (step this) st ops).latestMetrics a).timestamp := by
  induction ops generalizing st with
  | nil => simp at hsub
  | cons op rest ih =>
      by_cases hcase : isSubmitBy a op = true
      · apply foldl_ts_pos this a rest (fun o ho => hpos o (by simp [ho]))
        cases op with
        | submit sender ts e s p =>
            have hsa : sender = a := by simpa [isSubmitBy] using hcase
            subst hsa
            show 0 < ((submitMetrics this st sender ts e s p).1.latestMetrics sender).timestamp
            rw [submitMetrics_timestamp]
            simpa [opPosTs] using hpos (Op.submit sender ts e s p) (by simp)
        | reauthRecord sender index => simp [isSubmitBy] at hcase
        | reauthAll sender => simp [isSubmitBy] at hcase
      · apply ih (fun o ho => hpos o (by simp [ho]))
        obtain ⟨o, ho, hso⟩ := hsub
        rcases List.mem_cons.mp ho with rfl | homem
        · exact absurd hso hcase
        · exact ⟨o, homem, hso⟩

end BambooHold

namespace BambooHold

/-- Claim C2: a successful `submitMetrics` call appends exactly one record,
sets the latest projection to it, increments the caller's counter by one,
grants disclosure on all five handles to the caller and the contract,
and emits a record-submitted event with the new record's 0-based index
(new history length minus one) followed by a classification-updated
event; the model is a single total state transformer, so all effects
occur together. -/
theorem c2_submit_effects (this : Address) (st : ContractState) (sender : Address)
    (ts e s p : Nat) :
    ∃ r : MetricsRecord,
      (submitMetrics this st sender ts e s p).1.userHistory sender
          = st.userHistory sender ++ [r] ∧
      (submitMetrics this st sender ts e s p).1.latestMetrics sender = r ∧
      r.timestamp = ts ∧
      (submitMetrics this st sender ts e s p).1.submissionCount sender
          = st.submissionCount sender + 1 ∧
      (submitMetrics this st sender ts e s p).1.acl r.emotionalFluctuation.id sender = true ∧
      (submitMetrics this st sender ts e s p).1.acl r.socialFatigue.id sender = true ∧
      (submitMetrics this st sender ts e s p).1.acl r.sleepDebt.id sender = true ∧
      (submitMetrics this st sender ts e s p).1.acl r.riskScore.id sender = true ∧
      (submitMetrics this st sender ts e s p).1.acl r.cautionWindow.id sender = true ∧
      (submitMetrics this st sender ts e s p).1.acl r.emotionalFluctuation.id this = true ∧
      (submitMetrics this st sender ts e s p).1.acl r.socialFatigue.id this = true ∧
      (submitMetrics this st sender ts e s p).1.acl r.sleepDebt.id this = true ∧
      (submitMetrics this st sender ts e s p).1.acl r.riskScore.id this = true ∧
      (submitMetrics this st sender ts e s p).1.acl r.cautionWindow.id this = true ∧
      (submitMetrics this st sender ts e s p).2
          = [Event.metricsSubmitted sender ts
               (((submitMetrics this st sender ts e s p).1.userHistory sender).length - 1),
             Event.cautionWindowUpdated sender ts] := by
  obtain ⟨a1, a2, a3, a4, a5, a6, a7, a8, a9, a10⟩ :=
    submitMetrics_acl this st sender ts e s p
  refine ⟨(submitMetrics this st sender ts e s p).1.latestMetrics sender,
    submitMetrics_history_self this st sender ts e s p, rfl,
    submitMetrics_timestamp this st sender ts e s p,
    submitMetrics_count_self this st sender ts e s p,
    a1, a2, a3, a4, a5, a6, a7, a8, a9, a10, ?_⟩
  rw [submitMetrics_events, submitMetrics_history_self]
  simp

/-- Claim C4: `getMetricsAtIndex` fails with `IndexOutOfBounds` exactly when the
index is at least the caller's history length, and for an in-range index
returns the record stored at that 0-based position. -/
theorem c4_get_at_index (st : ContractState) (sender : Address) (index : Nat) :
    (getMetricsAtIndex st sender index = .error .indexOutOfBounds
        ↔ (st.userHistory sender).length ≤ index) ∧
    ∀ h : index < (st.userHistory sender).length,
      getMetricsAtIndex st sender index
        = .ok ((st.userHistory sender).get ⟨index, h⟩) := by
  constructor
  · unfold getMetricsAtIndex
    split
    · next h =>
        simp
        omega
    · next h =>
        simp
        omega
  · intro h
    exact dif_pos h

/-- Witness for C4 in the state after one submission: index 1 is out of
bounds and index 0 returns the stored record. -/
theorem c4_witness :
    getMetricsAtIndex (submitMetrics 0 initState 1 5 2 3 4).1 1 1
        = .error .indexOutOfBounds ∧
    getMetricsAtIndex (submitMetrics 0 initState 1 5 2 3 4).1 1 0
        = .ok (((submitMetrics 0 initState 1 5 2 3 4).1.userHistory 1).get ⟨0, by decide⟩) :=
  ⟨(c4_get_at_index (submitMetrics 0 initState 1 5 2 3 4).1 1 1).1.mpr (by decide),
   (c4_get_at_index (submitMetrics 0 initState 1 5 2 3 4).1 1 0).2 (by decide)⟩

/-- Claim C9: for every input triple, in or out of the documented domain, the
tier produced by the classifier is one of 0, 1, 2, because it is built
from nested selects over the constants 0, 1 and 2. -/
theorem c9_tier_always_in_range (c : Nat) (eh sh ph : Handle) :
    (calculateRiskScore c eh sh ph).2.1.val = 0 ∨
    (calculateRiskScore c eh sh ph).2.1.val = 1 ∨
    (calculateRiskScore c eh sh ph).2.1.val = 2 := by
  simp only [calculateRiskScore, FHE.asEuint16, FHE.mul16, FHE.add16, FHE.asEuint32,
    FHE.ge16, FHE.asEuint8, FHE.select]
  split_ifs <;> norm_num

/-- Claim C10: a `submitMetrics` call by one principal leaves every other
principal's history, latest projection and counter unchanged, and more
generally every mutating operation touches only ledger entries keyed by
its own sender. -/
theorem c10_cross_principal_frame (this : Address) (st : ContractState) (b : Address) :
    (∀ sender ts e s p, b ≠ sender →
        (submitMetrics this st sender ts e s p).1.userHistory b = st.userHistory b ∧
        (submitMetrics this st sender ts e s p).1.latestMetrics b = st.latestMetrics b ∧
        (submitMetrics this st sender ts e s p).1.submissionCount b
            = st.submissionCount b) ∧
    (∀ op : Op, op.sender ≠ b →
        (step this st op).userHistory b = st.userHistory b ∧
        (step this st op).latestMetrics b = st.latestMetrics b ∧
        (step this st op).submissionCount b = st.submissionCount b) := by
  constructor
  · intro sender ts e s p hb
    exact submitMetrics_frame this st sender ts e s p b hb
  · intro op hop
    apply step_frame_not_submitter
    cases op with
    | submit sender ts e s p =>
        simp only [Op.sender] at hop
        simp [isSubmitBy, hop]
    | reauthRecord sender index => rfl
    | reauthAll sender => rfl

/-- Witness for C10: a submission by principal 1 leaves principal 2's
counter untouched. -/
theorem c10_witness :
    (submitMetrics 0 initState 1 5 1 2 3).1.submissionCount 2
        = initState.submissionCount 2 :=
  ((c10_cross_principal_frame 0 initState 2).1 1 5 1 2 3 (by decide)).2.2

end BambooHold

namespace BambooHold

/-- Claim C3: in every state reachable by any sequence of contract operations,
each principal's submission counter equals that principal's history
length, and on a non-empty history the latest projection is its last
element. -/
theorem c3_counter_and_latest_invariant (this : Address) (ops : List Op) (a : Address) :
    (run this ops).submissionCount a = ((run this ops).userHistory a).length ∧
    ((run this ops).userHistory a ≠ [] →
      ((run this ops).userHistory a).getLast? = some ((run this ops).latestMetrics a)) :=
  inv_run this ops a

/-- Witness for C3 on a concrete two-submission trace. -/
theorem c3_witness :
    (run 0 [Op.submit 1 5 10 20 30, Op.submit 1 7 1 2 3]).submissionCount 1
        = ((run 0 [Op.submit 1 5 10 20 30, Op.submit 1 7 1 2 3]).userHistory 1).length ∧
    ((run 0 [Op.submit 1 5 10 20 30, Op.submit 1 7 1 2 3]).userHistory 1).getLast?
        = some ((run 0 [Op.submit 1 5 10 20 30, Op.submit 1 7 1 2 3]).latestMetrics 1) :=
  ⟨(c3_counter_and_latest_invariant 0 [Op.submit 1 5 10 20 30, Op.submit 1 7 1 2 3] 1).1,
   (c3_counter_and_latest_invariant 0 [Op.submit 1 5 10 20 30, Op.submit 1 7 1 2 3] 1).2
     (by decide)⟩

/-- Claim C5: on any trace with positive block timestamps, a principal who never
submitted gets `NoSubmission` from `getLatestMetrics`, `getRiskScore` and
`getCautionWindow`, while after at least one successful submit each of the
three succeeds. -/
theorem c5_no_submission_gating (this : Address) (ops : List Op) (a : Address)
    (hpos : ∀ op ∈ ops, opPosTs op = true) :
    ((∀ op ∈ ops, isSubmitBy a op = false) →
        getLatestMetrics (run this ops) a = .error .noSubmission ∧
        getRiskScore (run this ops) a = .error .noSubmission ∧
        getCautionWindow (run this ops) a = .error .noSubmission) ∧
    ((∃ op ∈ ops, isSubmitBy a op = true) →
        (∃ v, getLatestMetrics (run this ops) a = .ok v) ∧
        (∃ v, getRiskScore (run this ops) a = .ok v) ∧
        (∃ v, getCautionWindow (run this ops) a = .ok v)) := by
  constructor
  · intro hnone
    have hlat : (run this ops).latestMetrics a = defaultRecord :=
      (foldl_no_submit this a ops hnone initState).2.1
    have hts : ¬ 0 < ((run this ops).latestMetrics a).timestamp := by
      rw [hlat]
      simp [defaultRecord]
    exact ⟨by simp [getLatestMetrics, hts], by simp [getRiskScore, hts],
           by simp [getCautionWindow, hts]⟩
  · intro hsome
    have hts : 0 < ((run this ops).latestMetrics a).timestamp :=
      foldl_submit_ts_pos this a ops hpos hsome initState
    refine ⟨⟨(((run this ops).latestMetrics a).emotionalFluctuation,
        ((run this ops).latestMetrics a).socialFatigue,
        ((run this ops).latestMetrics a).sleepDebt,
        ((run this ops).latestMetrics a).timestamp), ?_⟩,
      ⟨((run this ops).latestMetrics a).riskScore, ?_⟩,
      ⟨((run this ops).latestMetrics a).cautionWindow, ?_⟩⟩
    · unfold getLatestMetrics
      rw [if_pos hts]
    · unfold getRiskScore
      rw [if_pos hts]
    · unfold getCautionWindow
      rw [if_pos hts]

/-- Witness for C5: in the one-submission trace, principal 2 (who never
submitted) is refused and principal 1 (who submitted) is served. -/
theorem c5_witness :
    getRiskScore (run 0 [Op.submit 1 5 1 2 3]) 2 = .error .noSubmission ∧
    ∃ v, getRiskScore (run 0 [Op.submit 1 5 1 2 3]) 1 = .ok v :=
  ⟨((c5_no_submission_gating 0 [Op.submit 1 5 1 2 3] 2 (by decide)).1 (by decide)).2.1,
   ((c5_no_submission_gating 0 [Op.submit 1 5 1 2 3] 1 (by decide)).2 (by decide)).2.1⟩

/-- Claim C6 counterexample: in the deployment state, before any submit,
`getHistoryCount` and `getSummary` succeed (returning 0 and (0,0)) rather
than failing with `NoSubmission`, refuting the claim that every
per-principal accessor fails before the first submit. -/
theorem c6_counterexample :
    getHistoryCount initState 7 = .ok 0 ∧
    getSummary initState 7 = .ok (0, 0) ∧
    getHistoryCount initState 7 ≠ .error .noSubmission ∧
    getSummary initState 7 ≠ .error .noSubmission := by
  refine ⟨rfl, rfl, ?_, ?_⟩ <;> simp [getHistoryCount, getSummary, initState]

/-- Claim C6 (amended): before a principal's first submit, `getRiskScore`,
`getCautionWindow` and `getLatestMetrics` fail with `NoSubmission`,
`getMetricsAtIndex` fails with `IndexOutOfBounds` for every index, while
`getHistoryCount` and `getSummary` succeed, returning 0 and (0,0). -/
theorem c6_amended_accessor_gating (this : Address) (ops : List Op) (a : Address)
    (hnone : ∀ op ∈ ops, isSubmitBy a op = false) :
    getRiskScore (run this ops) a = .error .noSubmission ∧
    getCautionWindow (run this ops) a = .error .noSubmission ∧
    getLatestMetrics (run this ops) a = .error .noSubmission ∧
    (∀ index : Nat, getMetricsAtIndex (run this ops) a index
        = .error .indexOutOfBounds) ∧
    getHistoryCount (run this ops) a = .ok 0 ∧
    getSummary (run this ops) a = .ok (0, 0) := by
  obtain ⟨hh, hl, hc⟩ := foldl_no_submit this a ops hnone initState
  have hh0 : (run this ops).userHistory a = [] := hh
  have hl0 : (run this ops).latestMetrics a = defaultRecord := hl
  have hc0 : (run this ops).submissionCount a = 0 := hc
  have hts : ¬ 0 < ((run this ops).latestMetrics a).timestamp := by
    rw [hl0]
    simp [defaultRecord]
  refine ⟨by simp [getRiskScore, hts], by simp [getCautionWindow, hts],
    by simp [getLatestMetrics, hts], ?_, ?_, ?_⟩
  · intro index
    unfold getMetricsAtIndex
    rw [dif_neg]
    rw [hh0]
    simp
  · simp [getHistoryCount, hh0]
  · simp [getSummary, hc0, hl0, defaultRecord]

/-- Witness for C6 (amended) on a trace where principal 2 never
submitted. -/
theorem c6_witness :
    getSummary (run 0 [Op.submit 1 5 1 2 3]) 2 = .ok (0, 0) ∧
    getMetricsAtIndex (run 0 [Op.submit 1 5 1 2 3]) 2 0 = .error .indexOutOfBounds :=
  ⟨(c6_amended_accessor_gating 0 [Op.submit 1 5 1 2 3] 2 (by decide)).2.2.2.2.2,
   (c6_amended_accessor_gating 0 [Op.submit 1 5 1 2 3] 2 (by decide)).2.2.2.1 0⟩

end BambooHold

namespace BambooHold

/-- Claim C7: for inputs in [0,100] no 16-bit arithmetic step of the classifier
wraps: each weighted product and each running sum equals its exact value
and stays at or below 3700, and the widened 32-bit score equals the exact
weighted sum. -/
theorem c7_no_overflow (c : Nat) (eh sh ph : Handle)
    (he : eh.val ≤ 100) (hs : sh.val ≤ 100) (hp : ph.val ≤ 100) :
    ((FHE.mul16 c eh (FHE.asEuint16 c 12).1).1.val = 12 * eh.val
      ∧ 12 * eh.val ≤ 3700) ∧
    ((FHE.mul16 c sh (FHE.asEuint16 c 10).1).1.val = 10 * sh.val
      ∧ 10 * sh.val ≤ 3700) ∧
    ((FHE.mul16 c ph (FHE.asEuint16 c 15).1).1.val = 15 * ph.val
      ∧ 15 * ph.val ≤ 3700) ∧
    ((FHE.add16 c (FHE.mul16 c eh (FHE.asEuint16 c 12).1).1
        (FHE.mul16 c sh (FHE.asEuint16 c 10).1).1).1.val
        = 12 * eh.val + 10 * sh.val
      ∧ 12 * eh.val + 10 * sh.val ≤ 3700) ∧
    ((FHE.add16 c (FHE.add16 c (FHE.mul16 c eh (FHE.asEuint16 c 12).1).1
        (FHE.mul16 c sh (FHE.asEuint16 c 10).1).1).1
        (FHE.mul16 c ph (FHE.asEuint16 c 15).1).1).1.val
        = 12 * eh.val + 10 * sh.val + 15 * ph.val
      ∧ 12 * eh.val + 10 * sh.val + 15 * ph.val ≤ 3700) ∧
    (calculateRiskScore c eh sh ph).1.val
        = 12 * eh.val + 10 * sh.val + 15 * ph.val := by
  have hmain := (calculateRiskScore_val c eh sh ph he hs hp).1
  simp only [FHE.asEuint16, FHE.mul16, FHE.add16]
  norm_num
  refine ⟨⟨?_, by omega⟩, ⟨?_, by omega⟩, ⟨?_, by omega⟩, ⟨?_, by omega⟩,
    ⟨?_, by omega⟩, hmain⟩ <;> omega

/-- Witness for C7 at the maximal inputs (100, 100, 100), total 3700. -/
theorem c7_witness :
    (calculateRiskScore 1 ⟨1, 100⟩ ⟨2, 100⟩ ⟨3, 100⟩).1.val = 3700 := by
  have h := (c7_no_overflow 1 ⟨1, 100⟩ ⟨2, 100⟩ ⟨3, 100⟩
    (by norm_num) (by norm_num) (by norm_num)).2.2.2.2.2
  simpa using h

end BambooHold

namespace Frontend

lemma extractValues_ok (handles : List String) (response : String → Option Nat)
    (h : ∀ x ∈ handles, (response x).isSome) :
    extractValues handles response
      = .ok (handles.map fun x => (response x).getD 0) := by
  induction handles with
  | nil => rfl
  | cons hd tl ih =>
      have hhd := h hd (by simp)
      cases hr : response hd with
      | none =>
          rw [hr] at hhd
          simp at hhd
      | some v =>
          have htl := ih (fun x hx => h x (by simp [hx]))
          simp [extractValues, hr, htl, Except.map]

lemma extractValues_err (handles : List String) (response : String → Option Nat)
    (h : ∃ x ∈ handles, response x = none) :
    ∃ msg, extractValues handles response = .error msg := by
  induction handles with
  | nil => simp at h
  | cons hd tl ih =>
      cases hr : response hd with
      | none =>
          refine ⟨"Failed to decrypt handle " ++ hd, ?_⟩
          simp [extractValues, hr]
      | some v =>
          obtain ⟨x, hx, hxn⟩ := h
          rcases List.mem_cons.mp hx with rfl | hmem
          · rw [hr] at hxn
            cases hxn
          · obtain ⟨msg, hmsg⟩ := ih ⟨x, hmem, hxn⟩
            refine ⟨msg, ?_⟩
            simp [extractValues, hr, hmsg, Except.map]

/-- Claim C8: for a non-empty batch, `userDecryptBatch` requests exactly one
signature regardless of the batch size, and either returns a plaintext
for every requested handle in request order, or fails the whole batch
when any handle is missing from the oracle's response, with no partial
result. -/
theorem c8_batch_disclosure (handles : List String) (response : String → Option Nat)
    (hne : handles ≠ []) :
    (userDecryptBatch handles response).signaturesRequested = 1 ∧
    ((∀ h ∈ handles, (response h).isSome) →
        (userDecryptBatch handles response).result
          = .ok (handles.map fun h => (response h).getD 0)) ∧
    ((∃ h ∈ handles, response h = none) →
        ∃ msg, (userDecryptBatch handles response).result = .error msg) := by
  have hempty : handles.isEmpty = false := by
    simpa [List.isEmpty_iff] using hne
  unfold userDecryptBatch
  rw [hempty]
  exact ⟨rfl, fun h => extractValues_ok handles response h,
    fun h => extractValues_err handles response h⟩

end Frontend

namespace Frontend

/-- Witness for C8: a two-handle batch with a complete oracle response
uses one signature and yields both plaintexts in order. -/
theorem c8_witness :
    (userDecryptBatch ["a", "b"]
        (fun x => if x = "a" then some 1 else some 2)).signaturesRequested = 1 ∧
    (userDecryptBatch ["a", "b"]
        (fun x => if x = "a" then some 1 else some 2)).result = .ok [1, 2] := by
  have hthm := c8_batch_disclosure ["a", "b"]
    (fun x => if x = "a" then some 1 else some 2) (by simp)
  refine ⟨hthm.1, ?_⟩
  have h := hthm.2.1 (by decide)
  simpa using h

end Frontend
namespace BambooHold

/-- Claim C1: for inputs in [0,100], `submitMetrics` stores a score whose
plaintext is `12*e + 10*s + 15*p` and a tier whose plaintext is 2 when the
total is ≥ 1850, else 1 when ≥ 1110, else 0; with non-strict comparisons
at both boundaries, witnessed at totals 1109, 1110, 1849 and 1850. -/
theorem c1_classifier_score_and_tier (this : Address) (st : ContractState)
    (sender : Address) (ts e s p : Nat)
    (he : e ≤ 100) (hs : s ≤ 100) (hp : p ≤ 100) :
    (((submitMetrics this st sender ts e s p).1.latestMetrics sender).riskScore).val
        = 12 * e + 10 * s + 15 * p ∧
    (((submitMetrics this st sender ts e s p).1.latestMetrics sender).cautionWindow).val
        = (if 1850 ≤ 12 * e + 10 * s + 15 * p then 2
           else if 1110 ≤ 12 * e + 10 * s + 15 * p then 1 else 0) ∧
    (((submitMetrics 0 initState 1 1 12 95 1).1.latestMetrics 1).cautionWindow).val = 0 ∧
    (((submitMetrics 0 initState 1 1 10 99 0).1.latestMetrics 1).cautionWindow).val = 1 ∧
    (((submitMetrics 0 initState 1 1 72 97 1).1.latestMetrics 1).cautionWindow).val = 1 ∧
    (((submitMetrics 0 initState 1 1 100 65 0).1.latestMetrics 1).cautionWindow).val = 2 := by
  have h100e : e % 65536 = e := Nat.mod_eq_of_lt (by omega)
  have h100s : s % 65536 = s := Nat.mod_eq_of_lt (by omega)
  have h100p : p % 65536 = p := Nat.mod_eq_of_lt (by omega)
  refine ⟨?_, ?_, by decide, by decide, by decide, by decide⟩
  · simp only [submitMetrics, FHE.fromExternal16, h100e, h100s, h100p]
    simp only [ite_true, if_pos rfl]
    exact (calculateRiskScore_val _ _ _ _ he hs hp).1
  · simp only [submitMetrics, FHE.fromExternal16, h100e, h100s, h100p]
    simp only [ite_true, if_pos rfl]
    exact (calculateRiskScore_val _ _ _ _ he hs hp).2

/-- Witness for C1 at the concrete input (100, 65, 0), total 1850. -/
theorem c1_witness :
    ((submitMetrics 0 initState 1 1 100 65 0).1.latestMetrics 1).riskScore.val
        = 12 * 100 + 10 * 65 + 15 * 0 :=
  (c1_classifier_score_and_tier 0 initState 1 1 100 65 0
    (by norm_num) (by norm_num) (by norm_num)).1

end BambooHold
